import Mathlib

/-!
Shallow embedding of `src/elt/extract.py` (repository `nba-stats-vis`).

The source is a single Google-Cloud-Function handler `process_nba_stats`
built on a class `NBAStatsProcessor` with three methods:
`get_player_stats`, `upload_to_gcs` and `process_player`.

Modelling decisions:
  - Python/JSON values appearing in a request body are modelled by `JVal`
    (null, booleans, integers, strings, arrays, objects), with Python
    truthiness `truthy` and Python's `dict.get` as `pyGet` / `pyGetD`
    (raising `AttributeError` on non-dict receivers, as Python does).
  - A pandas `DataFrame` is modelled by `Frame`: a header list of column
    names and rows of string cells; `Frame.toCsv` models
    `DataFrame.to_csv(index=False)` (header row then one line per row,
    comma separated); `Frame.setCol` models `df[col] = scalar`.
  - The external world is an `Env`: the NBA statistics provider call
    (`playercareerstats.PlayerCareerStats(...).get_data_frames()`), the
    GCS upload (`blob.upload_from_string`), and the storage-client
    constructor (`storage.Client(project=...)`); each may raise, which is
    modelled by `Except String`.
  - Every invocation of the GCS upload is recorded as an `UploadCall`
    (bucket, blob name, content, content type, and whether it succeeded),
    so that "no storage write is attempted" is the statement that the
    trace of upload calls is empty.
  - Exceptions are `Except String` values; a Python `try/except Exception`
    block is the corresponding `match` on the `Except`.
-/

set_option autoImplicit false

/-- A JSON-like Python value, as produced by `request.get_json()`. -/
inductive JVal where
  | jnull
  | jbool (b : Bool)
  | jnum (n : Int)
  | jstr (s : String)
  | jarr (xs : List JVal)
  | jobj (kvs : List (String × JVal))
deriving Repr

/-- Python truthiness (`bool(v)`): `None`, `False`, `0`, `""`, `[]`, `{}`
are falsy, everything else truthy. -/
def truthy : JVal → Bool
  | .jnull => false
  | .jbool b => b
  | .jnum n => n != 0
  | .jstr s => !s.isEmpty
  | .jarr xs => !xs.isEmpty
  | .jobj kvs => !kvs.isEmpty

mutual

/-- Python `str(v)` for the values that can appear in an f-string in the
source (`f"選手 {player_name} ..."`, `f"player_stats/{player_id}_..."`).
Scalar cases are exact; containers are rendered element-wise. -/
def pystr : JVal → String
  | .jnull => "None"
  | .jbool b => cond b "True" "False"
  | .jnum n => toString n
  | .jstr s => s
  | .jarr xs => "[" ++ pystrList xs ++ "]"
  | .jobj kvs => "\x7b" ++ pystrObj kvs ++ "\x7d"

/-- Comma-separated rendering of a list of values. -/
def pystrList : List JVal → String
  | [] => ""
  | [x] => pystr x
  | x :: xs => pystr x ++ ", " ++ pystrList xs

/-- Comma-separated rendering of key/value pairs. -/
def pystrObj : List (String × JVal) → String
  | [] => ""
  | [(k, v)] => k ++ ": " ++ pystr v
  | (k, v) :: kvs => k ++ ": " ++ pystr v ++ ", " ++ pystrObj kvs

end

/-- Python `d.get(k)`: `None` when the key is missing; raises
`AttributeError` when the receiver is not a dict. -/
def pyGet : JVal → String → Except String JVal
  | .jobj kvs, k => .ok ((kvs.lookup k).getD .jnull)
  | _, _ => .error "AttributeError: object has no attribute get"

/-- Python `d.get(k, default)`. -/
def pyGetD : JVal → String → JVal → Except String JVal
  | .jobj kvs, k, d => .ok ((kvs.lookup k).getD d)
  | _, _, _ => .error "AttributeError: object has no attribute get"

/-- Whether a value is a Python dict. -/
def JVal.isObjB : JVal → Bool
  | .jobj _ => true
  | _ => false

/-- `d.get(k)` on a dict, as a total function (`None` for a missing key). -/
def objGet (v : JVal) (k : String) : JVal :=
  match v with
  | .jobj kvs => (kvs.lookup k).getD .jnull
  | _ => .jnull

/-- Python `for x in v`: lists yield elements, strings yield one-character
strings, dicts yield their keys; other values raise `TypeError`. -/
def pyIter : JVal → Except String (List JVal)
  | .jarr xs => .ok xs
  | .jstr s => .ok (s.toList.map (fun c => .jstr (String.singleton c)))
  | .jobj kvs => .ok (kvs.map (fun kv => .jstr kv.1))
  | _ => .error "TypeError: object is not iterable"

/-- A pandas `DataFrame`: named columns and rows of cells. -/
structure Frame where
  cols : List String
  rows : List (List String)
deriving Repr, DecidableEq

/-- `df.to_csv(index=False)`: header row, then one comma-separated line
per data row, each line terminated by a newline. -/
def Frame.toCsv (df : Frame) : String :=
  String.intercalate "," df.cols ++ "\n"
    ++ String.join (df.rows.map (fun r => String.intercalate "," r ++ "\n"))

/-- `df[c] = v` with a scalar `v`: overwrite the column if present,
otherwise append it, broadcasting `v` to every row. -/
def Frame.setCol (df : Frame) (c : String) (v : String) : Frame :=
  if df.cols.contains c then
    { cols := df.cols,
      rows := df.rows.map (fun r =>
        (df.cols.zip r).map (fun p => if p.1 = c then v else p.2)) }
  else
    { cols := df.cols ++ [c], rows := df.rows.map (fun r => r ++ [v]) }

/-- One invocation of `blob.upload_from_string`, recorded with the bucket
it targeted, the blob name, the uploaded content and content type, and
whether the call succeeded. -/
structure UploadCall where
  bucket : JVal
  blobName : String
  content : String
  contentType : String
  ok : Bool
deriving Repr

/-- The external world: the statistics provider, the GCS upload, and the
storage-client constructor. Each call may raise. -/
structure Env where
  provider : JVal → Except String (List Frame)
  upload : JVal → String → String → Except String Unit
  clientInit : JVal → Except String Unit

/-- `NBAStatsProcessor.get_player_stats` (extract.py lines 21-31):
call the provider, take `get_data_frames()[0]`, set the `PLAYER_NAME`
column to the supplied name; on any exception (including the
`IndexError` of `[0]` on an empty result list) log and return `None`. -/
def get_player_stats (env : Env) (player_id player_name : JVal) : Option Frame :=
  match env.provider player_id with
  | .error _ => none
  | .ok [] => none
  | .ok (df :: _) => some (df.setCol "PLAYER_NAME" (pystr player_name))

/-- `NBAStatsProcessor.upload_to_gcs` (extract.py lines 33-42): serialize
with `to_csv(index=False)` and upload with content type `text/csv`;
return `True` on success, `False` on any exception. The returned list
records the upload call. -/
def upload_to_gcs (env : Env) (bucket_name : JVal) (data : Frame)
    (blob_name : String) : Bool × List UploadCall :=
  let csv_data := data.toCsv
  match env.upload bucket_name blob_name csv_data with
  | .ok _ => (true, [⟨bucket_name, blob_name, csv_data, "text/csv", true⟩])
  | .error _ => (false, [⟨bucket_name, blob_name, csv_data, "text/csv", false⟩])

/-- The body of `NBAStatsProcessor.process_player` (extract.py lines
45-53): fetch, and if a frame came back, upload it under
`player_stats/{player_id}_play_stats.csv`. -/
def process_player_body (env : Env) (bucket_name player_id player_name : JVal) :
    (Bool × String) × List UploadCall :=
  match get_player_stats env player_id player_name with
  | none => ((false, "選手 " ++ pystr player_name ++ " のデータ取得に失敗しました"), [])
  | some df =>
    let blob_name := "player_stats/" ++ pystr player_id ++ "_play_stats.csv"
    match upload_to_gcs env bucket_name df blob_name with
    | (true, tr) => ((true, "選手 " ++ pystr player_name ++ " のデータを正常に処理しました"), tr)
    | (false, tr) => ((false, "選手 " ++ pystr player_name ++ " のデータのアップロードに失敗しました"), tr)

/-- The `try/except Exception` wrapper of `process_player` (extract.py
lines 44-56): a raised exception is converted to a failure outcome. -/
def process_player_except (player_name : JVal)
    (body : Except String ((Bool × String) × List UploadCall)) :
    (Bool × String) × List UploadCall :=
  match body with
  | .ok r => r
  | .error e => ((false, "選手 " ++ pystr player_name ++ " の処理中にエラー発生: " ++ e), [])

/-- `NBAStatsProcessor.process_player` (extract.py lines 44-56). In this
embedding the body never raises (both inner calls catch all their
exceptions), so it is passed to the handler as `.ok`. -/
def process_player (env : Env) (bucket_name player_id player_name : JVal) :
    (Bool × String) × List UploadCall :=
  process_player_except player_name (.ok (process_player_body env bucket_name player_id player_name))

/-- One per-player entry of the `results` list built by
`process_nba_stats` (extract.py lines 84-91). -/
structure Outcome where
  player_id : JVal
  name : JVal
  success : Bool
  message : String
deriving Repr

/-- The JSON body returned by `process_nba_stats`: either
`{"success": b, "error": e}` or
`{"success": b, "total_processed": t, "success_count": c, "results": rs}`. -/
inductive Resp where
  | err (success : Bool) (error : String)
  | report (success : Bool) (total_processed : Nat) (success_count : Nat)
      (results : List Outcome)
deriving Repr

/-- The `for player in players` loop of `process_nba_stats` (extract.py
lines 80-93): `player.get("id")` / `player.get("name")` may raise on a
non-dict entry (the exception escapes the loop, keeping the upload calls
already made); otherwise one `Outcome` is appended per player and the
success counter is incremented on success. -/
def processLoop (env : Env) (bucket_name : JVal) :
    List JVal → Except String (List Outcome × Nat) × List UploadCall
  | [] => (.ok ([], 0), [])
  | p :: rest =>
    match pyGet p "id" with
    | .error e => (.error e, [])
    | .ok pid =>
      match pyGet p "name" with
      | .error e => (.error e, [])
      | .ok pname =>
        match process_player env bucket_name pid pname with
        | ((succ, msg), tr) =>
          match processLoop env bucket_name rest with
          | (.ok (os, cnt), trs) =>
            (.ok (⟨pid, pname, succ, msg⟩ :: os, (cond succ 1 0) + cnt), tr ++ trs)
          | (.error e, trs) => (.error e, tr ++ trs)

/-- The body of the `try` in `process_nba_stats` (extract.py lines 62-100):
validation, storage-client construction, the player loop, and the final
report. An `.error` is an exception escaping to the top-level handler. -/
def handler_body (env : Env) (request_json : Option JVal) :
    Except String (Resp × Nat) × List UploadCall :=
  match request_json with
  | none => (.ok (.err false "リクエストボディが必要です", 400), [])
  | some body =>
    if truthy body = false then
      (.ok (.err false "リクエストボディが必要です", 400), [])
    else
      match pyGet body "project_id" with
      | .error e => (.error e, [])
      | .ok project_id =>
        match pyGet body "bucket_name" with
        | .error e => (.error e, [])
        | .ok bucket_name =>
          match pyGetD body "players" (.jarr []) with
          | .error e => (.error e, [])
          | .ok players =>
            if (truthy project_id && truthy bucket_name && truthy players) = false then
              (.ok (.err false "project_id, bucket_name, players が必要です", 400), [])
            else
              match env.clientInit project_id with
              | .error e => (.error e, [])
              | .ok _ =>
                match pyIter players with
                | .error e => (.error e, [])
                | .ok items =>
                  match processLoop env bucket_name items with
                  | (.ok (results, cnt), tr) =>
                    (.ok (.report true items.length cnt results, 200), tr)
                  | (.error e, tr) => (.error e, tr)

/-- `process_nba_stats` (extract.py lines 60-104): the handler body under
the top-level `try/except Exception`, which converts any escaping
exception into `({"success": False, "error": str(e)}, 500)`. -/
def process_nba_stats (env : Env) (request_json : Option JVal) :
    (Resp × Nat) × List UploadCall :=
  match handler_body env request_json with
  | (.ok r, tr) => (r, tr)
  | (.error e, tr) => ((.err false e, 500), tr)

/-! ## Concrete environments used by witnesses and counterexamples -/

/-- An environment in which the provider always raises. -/
def envFetchFail : Env where
  provider := fun _ => .error "HTTPSConnectionPool timeout"
  upload := fun _ _ _ => .ok ()
  clientInit := fun _ => .ok ()

/-- A concrete career-statistics table. -/
def frameA : Frame :=
  { cols := ["SEASON_ID", "PTS"], rows := [["2003-04", "1654"], ["2004-05", "2175"]] }

/-- An environment in which fetch and upload always succeed. -/
def envAllOk : Env where
  provider := fun _ => .ok [frameA]
  upload := fun _ _ _ => .ok ()
  clientInit := fun _ => .ok ()

/-- An environment in which fetch succeeds but the upload raises. -/
def envUploadFail : Env where
  provider := fun _ => .ok [frameA]
  upload := fun _ _ _ => .error "403 Forbidden"
  clientInit := fun _ => .ok ()

/-- An environment in which `storage.Client(project=...)` raises. -/
def envInitFail : Env where
  provider := fun _ => .ok [frameA]
  upload := fun _ _ _ => .ok ()
  clientInit := fun _ => .error "DefaultCredentialsError"

/-! ## Helper lemmas -/

/-- On a dict, `pyGet` returns the looked-up value (default `None`). -/
theorem pyGet_isObj (p : JVal) (k : String) (h : p.isObjB = true) :
    pyGet p k = .ok (objGet p k) := by
  cases p <;> first | rfl | simp [JVal.isObjB] at h

/-! ## Claims about the player processor -/

/-- C4: if the fetch yields no result, the per-player outcome is failure
with the fetch-failure message, and no upload call is made (the trace of
upload invocations for that player is empty). -/
theorem fetch_fail_no_upload (env : Env) (bucket_name player_id player_name : JVal)
    (h : get_player_stats env player_id player_name = none) :
    process_player env bucket_name player_id player_name =
      ((false, "選手 " ++ pystr player_name ++ " のデータ取得に失敗しました"), []) := by
  simp [process_player, process_player_except, process_player_body, h]

/-- Witness for C4 at a concrete environment and player. -/
theorem fetch_fail_no_upload_witness :
    process_player envFetchFail (.jstr "bkt") (.jnum 2544) (.jstr "LeBron James") =
      ((false, "選手 " ++ pystr (.jstr "LeBron James") ++ " のデータ取得に失敗しました"), []) :=
  fetch_fail_no_upload envFetchFail (.jstr "bkt") (.jnum 2544) (.jstr "LeBron James") rfl

/-- C8: the stats fetcher returns `none` when the provider raises, and on
a successful provider call returns the first result table with the
`PLAYER_NAME` column set to the supplied name. -/
theorem get_player_stats_spec (env : Env) (player_id player_name : JVal) :
    (∀ e, env.provider player_id = .error e →
        get_player_stats env player_id player_name = none)
    ∧ (∀ df dfs, env.provider player_id = .ok (df :: dfs) →
        get_player_stats env player_id player_name =
          some (df.setCol "PLAYER_NAME" (pystr player_name))) := by
  constructor
  · intro e he
    simp [get_player_stats, he]
  · intro df dfs hdf
    simp [get_player_stats, hdf]

/-- Witness for C8: both branches at concrete environments. -/
theorem get_player_stats_spec_witness :
    get_player_stats envFetchFail (.jnum 2544) (.jstr "LeBron James") = none
    ∧ get_player_stats envAllOk (.jnum 2544) (.jstr "LeBron James") =
        some (frameA.setCol "PLAYER_NAME" (pystr (.jstr "LeBron James"))) :=
  ⟨(get_player_stats_spec envFetchFail (.jnum 2544) (.jstr "LeBron James")).1
      "HTTPSConnectionPool timeout" rfl,
   (get_player_stats_spec envAllOk (.jnum 2544) (.jstr "LeBron James")).2 frameA [] rfl⟩

/-- C6: if the fetch succeeds with table `df`, exactly one upload call is
made, targeting blob `player_stats/{player_id}_play_stats.csv` with
content type `text/csv` and content `to_csv(index=False)` of `df`
(header row plus one line per data row, no index column); the call
succeeds exactly when the storage upload does. -/
theorem fetch_success_single_upload (env : Env) (bucket_name player_id player_name : JVal)
    (df : Frame) (h : get_player_stats env player_id player_name = some df) :
    ∃ b m okf,
      process_player env bucket_name player_id player_name =
        ((b, m),
         [⟨bucket_name, "player_stats/" ++ pystr player_id ++ "_play_stats.csv",
           df.toCsv, "text/csv", okf⟩])
      ∧ df.toCsv = String.intercalate "," df.cols ++ "\n"
          ++ String.join (df.rows.map (fun r => String.intercalate "," r ++ "\n"))
      ∧ b = okf
      ∧ (okf = true ↔
          env.upload bucket_name ("player_stats/" ++ pystr player_id ++ "_play_stats.csv")
            df.toCsv = .ok ()) := by
  rcases hu : env.upload bucket_name ("player_stats/" ++ pystr player_id ++ "_play_stats.csv")
      df.toCsv with e | u
  · exact ⟨false, "選手 " ++ pystr player_name ++ " のデータのアップロードに失敗しました", false,
      by simp [process_player, process_player_except, process_player_body, h,
        upload_to_gcs, hu], rfl, rfl, by simp [hu]⟩
  · exact ⟨true, "選手 " ++ pystr player_name ++ " のデータを正常に処理しました", true,
      by simp [process_player, process_player_except, process_player_body, h,
        upload_to_gcs, hu], rfl, rfl, by simp [hu]⟩

/-- Witness for C6 at a concrete environment. -/
theorem fetch_success_single_upload_witness :
    ∃ b m okf,
      process_player envAllOk (.jstr "bkt") (.jnum 2544) (.jstr "LeBron James") =
        ((b, m),
         [⟨.jstr "bkt", "player_stats/" ++ pystr (.jnum 2544) ++ "_play_stats.csv",
           (frameA.setCol "PLAYER_NAME" (pystr (.jstr "LeBron James"))).toCsv, "text/csv", okf⟩])
      ∧ (frameA.setCol "PLAYER_NAME" (pystr (.jstr "LeBron James"))).toCsv =
          String.intercalate "," (frameA.setCol "PLAYER_NAME" (pystr (.jstr "LeBron James"))).cols ++ "\n"
            ++ String.join ((frameA.setCol "PLAYER_NAME" (pystr (.jstr "LeBron James"))).rows.map
                 (fun r => String.intercalate "," r ++ "\n"))
      ∧ b = okf
      ∧ (okf = true ↔
          envAllOk.upload (.jstr "bkt") ("player_stats/" ++ pystr (.jnum 2544) ++ "_play_stats.csv")
            (frameA.setCol "PLAYER_NAME" (pystr (.jstr "LeBron James"))).toCsv = .ok ()) :=
  fetch_success_single_upload envAllOk (.jstr "bkt") (.jnum 2544) (.jstr "LeBron James")
    (frameA.setCol "PLAYER_NAME" (pystr (.jstr "LeBron James"))) rfl

/-- Counterexample to C2 as stated: at a concrete environment where the
fetch yields no result, the outcome message is the code's Japanese text,
not the English `"failed to fetch data for <name>"` the claim quotes. -/
theorem process_player_english_counterexample :
    get_player_stats envFetchFail (.jnum 1) (.jstr "Alice") = none
    ∧ (process_player envFetchFail (.jstr "bkt") (.jnum 1) (.jstr "Alice")).1
        ≠ (false, "failed to fetch data for Alice") :=
  ⟨rfl, by decide⟩

/-- C2 amended: the outcome of `process_player` is exactly one of the
three message forms the code builds (with the code's actual Japanese
templates), according to fetch/upload status, and an exception raised in
the body is caught and converted to the error-outcome form. -/
theorem process_player_cases (env : Env) (bucket_name player_id player_name : JVal) :
    (get_player_stats env player_id player_name = none →
      (process_player env bucket_name player_id player_name).1 =
        (false, "選手 " ++ pystr player_name ++ " のデータ取得に失敗しました"))
    ∧ (∀ df, get_player_stats env player_id player_name = some df →
        env.upload bucket_name ("player_stats/" ++ pystr player_id ++ "_play_stats.csv")
          df.toCsv = .ok () →
        (process_player env bucket_name player_id player_name).1 =
          (true, "選手 " ++ pystr player_name ++ " のデータを正常に処理しました"))
    ∧ (∀ df e, get_player_stats env player_id player_name = some df →
        env.upload bucket_name ("player_stats/" ++ pystr player_id ++ "_play_stats.csv")
          df.toCsv = .error e →
        (process_player env bucket_name player_id player_name).1 =
          (false, "選手 " ++ pystr player_name ++ " のデータのアップロードに失敗しました"))
    ∧ (∀ e, process_player_except player_name (.error e) =
        ((false, "選手 " ++ pystr player_name ++ " の処理中にエラー発生: " ++ e), [])) := by
  refine ⟨?_, ?_, ?_, ?_⟩
  · intro h
    simp [process_player, process_player_except, process_player_body, h]
  · intro df h hu
    simp [process_player, process_player_except, process_player_body, h, upload_to_gcs, hu]
  · intro df e h hu
    simp [process_player, process_player_except, process_player_body, h, upload_to_gcs, hu]
  · intro e
    rfl

/-- Witness for the amended C2: all four branches at concrete inputs. -/
theorem process_player_cases_witness :
    (process_player envFetchFail (.jstr "bkt") (.jnum 1) (.jstr "Alice")).1 =
      (false, "選手 " ++ pystr (.jstr "Alice") ++ " のデータ取得に失敗しました")
    ∧ (process_player envAllOk (.jstr "bkt") (.jnum 1) (.jstr "Alice")).1 =
      (true, "選手 " ++ pystr (.jstr "Alice") ++ " のデータを正常に処理しました")
    ∧ (process_player envUploadFail (.jstr "bkt") (.jnum 1) (.jstr "Alice")).1 =
      (false, "選手 " ++ pystr (.jstr "Alice") ++ " のデータのアップロードに失敗しました")
    ∧ process_player_except (.jstr "Alice") (.error "boom") =
      ((false, "選手 " ++ pystr (.jstr "Alice") ++ " の処理中にエラー発生: " ++ "boom"), []) :=
  ⟨(process_player_cases envFetchFail (.jstr "bkt") (.jnum 1) (.jstr "Alice")).1 rfl,
   (process_player_cases envAllOk (.jstr "bkt") (.jnum 1) (.jstr "Alice")).2.1
      (frameA.setCol "PLAYER_NAME" (pystr (.jstr "Alice"))) rfl rfl,
   (process_player_cases envUploadFail (.jstr "bkt") (.jnum 1) (.jstr "Alice")).2.2.1
      (frameA.setCol "PLAYER_NAME" (pystr (.jstr "Alice"))) "403 Forbidden" rfl rfl,
   (process_player_cases envFetchFail (.jstr "bkt") (.jnum 1) (.jstr "Alice")).2.2.2 "boom"⟩

/-! ## The player loop -/

/-- The `Outcome` one loop iteration of `process_nba_stats` appends for a
dict player entry `p`: fields echo `p.get("id")` / `p.get("name")`, and
success/message come from `process_player` on those values. -/
def loopOutcome (env : Env) (bucket_name : JVal) (p : JVal) : Outcome :=
  { player_id := objGet p "id"
    name := objGet p "name"
    success := (process_player env bucket_name (objGet p "id") (objGet p "name")).1.1
    message := (process_player env bucket_name (objGet p "id") (objGet p "name")).1.2 }

/-- When every player entry is a dict, the loop never raises: it returns
one `Outcome` per entry, in input order, with the success counter equal
to the number of successful outcomes. -/
theorem processLoop_eq (env : Env) (bucket_name : JVal) :
    ∀ ps : List JVal, (∀ p ∈ ps, p.isObjB = true) →
    ∃ tr, processLoop env bucket_name ps =
      (.ok (ps.map (loopOutcome env bucket_name),
            (ps.map (loopOutcome env bucket_name)).countP (fun o => o.success)), tr) := by
  intro ps
  induction ps with
  | nil => intro _; exact ⟨[], rfl⟩
  | cons p rest ih =>
    intro h
    obtain ⟨trs, hrec⟩ := ih (fun q hq => h q (List.mem_cons_of_mem _ hq))
    have hid := pyGet_isObj p "id" (h p (List.mem_cons_self _ _))
    have hnm := pyGet_isObj p "name" (h p (List.mem_cons_self _ _))
    rcases hq : process_player env bucket_name (objGet p "id") (objGet p "name")
      with ⟨⟨succ, msg⟩, tr0⟩
    refine ⟨tr0 ++ trs, ?_⟩
    simp only [processLoop, hid, hnm, hq, hrec, List.map_cons, List.countP_cons,
      loopOutcome]
    cases succ <;> simp [Nat.add_comm]

/-- For a request whose body is a dict passing validation, whose players
value is a list of dicts, and whose storage-client construction succeeds,
the handler returns the 200 report built from the loop. -/
theorem handler_valid (env : Env) (kvs : List (String × JVal)) (ps : List JVal)
    (hbody : truthy (JVal.jobj kvs) = true)
    (hpj : truthy ((kvs.lookup "project_id").getD .jnull) = true)
    (hbn : truthy ((kvs.lookup "bucket_name").getD .jnull) = true)
    (hpl : (kvs.lookup "players").getD (.jarr []) = .jarr ps)
    (hne : truthy (.jarr ps) = true)
    (hobj : ∀ p ∈ ps, p.isObjB = true)
    (hinit : env.clientInit ((kvs.lookup "project_id").getD .jnull) = .ok ()) :
    ∃ tr, process_nba_stats env (some (.jobj kvs)) =
      ((.report true ps.length
          ((ps.map (loopOutcome env ((kvs.lookup "bucket_name").getD .jnull))).countP
            (fun o => o.success))
          (ps.map (loopOutcome env ((kvs.lookup "bucket_name").getD .jnull))), 200), tr) := by
  obtain ⟨tr, hloop⟩ :=
    processLoop_eq env ((kvs.lookup "bucket_name").getD .jnull) ps hobj
  refine ⟨tr, ?_⟩
  simp [process_nba_stats, handler_body, hbody, pyGet, pyGetD, hpl, hne, hpj, hbn,
    hinit, pyIter, hloop]

/-- C1: for every request passing validation (dict body with truthy
`project_id`, `bucket_name` and a non-empty players list of dicts, and a
storage client that constructs), the report satisfies
`len(results) = total_processed = len(players)` and `success_count` is
the number of successful results. -/
theorem aggregate_report_invariant (env : Env) (kvs : List (String × JVal)) (ps : List JVal)
    (hbody : truthy (JVal.jobj kvs) = true)
    (hpj : truthy (objGet (.jobj kvs) "project_id") = true)
    (hbn : truthy (objGet (.jobj kvs) "bucket_name") = true)
    (hpl : (kvs.lookup "players").getD (.jarr []) = .jarr ps)
    (hne : truthy (.jarr ps) = true)
    (hobj : ∀ p ∈ ps, p.isObjB = true)
    (hinit : env.clientInit (objGet (.jobj kvs) "project_id") = .ok ()) :
    ∃ results cnt tr,
      process_nba_stats env (some (.jobj kvs)) =
        ((.report true ps.length cnt results, 200), tr)
      ∧ results.length = ps.length
      ∧ cnt = results.countP (fun o => o.success) := by
  simp only [objGet] at hpj hbn hinit
  obtain ⟨tr, hres⟩ := handler_valid env kvs ps hbody hpj hbn hpl hne hobj hinit
  exact ⟨_, _, tr, hres, by simp, rfl⟩

/-- C9: for every request passing validation, the 200 response carries a
request-level `success` field that is `true`, whatever the per-player
outcomes and even when the success count is zero. -/
theorem validated_request_success_true (env : Env) (kvs : List (String × JVal)) (ps : List JVal)
    (hbody : truthy (JVal.jobj kvs) = true)
    (hpj : truthy (objGet (.jobj kvs) "project_id") = true)
    (hbn : truthy (objGet (.jobj kvs) "bucket_name") = true)
    (hpl : (kvs.lookup "players").getD (.jarr []) = .jarr ps)
    (hne : truthy (.jarr ps) = true)
    (hobj : ∀ p ∈ ps, p.isObjB = true)
    (hinit : env.clientInit (objGet (.jobj kvs) "project_id") = .ok ()) :
    ∃ cnt results tr,
      process_nba_stats env (some (.jobj kvs)) =
        ((.report true ps.length cnt results, 200), tr) := by
  simp only [objGet] at hpj hbn hinit
  obtain ⟨tr, hres⟩ := handler_valid env kvs ps hbody hpj hbn hpl hne hobj hinit
  exact ⟨_, _, tr, hres⟩

/-- C5: for every valid request, `results` has exactly one outcome per
input player, in input order, and the `player_id` / `name` fields of the
`i`-th outcome equal the `id` / `name` fields of the `i`-th input player. -/
theorem results_echo_players (env : Env) (kvs : List (String × JVal)) (ps : List JVal)
    (hbody : truthy (JVal.jobj kvs) = true)
    (hpj : truthy (objGet (.jobj kvs) "project_id") = true)
    (hbn : truthy (objGet (.jobj kvs) "bucket_name") = true)
    (hpl : (kvs.lookup "players").getD (.jarr []) = .jarr ps)
    (hne : truthy (.jarr ps) = true)
    (hobj : ∀ p ∈ ps, p.isObjB = true)
    (hinit : env.clientInit (objGet (.jobj kvs) "project_id") = .ok ()) :
    ∃ results cnt tr,
      process_nba_stats env (some (.jobj kvs)) =
        ((.report true ps.length cnt results, 200), tr)
      ∧ results.length = ps.length
      ∧ ∀ i (hi : i < ps.length) (hio : i < results.length),
          ∀ pkvs idv nmv,
            ps.get ⟨i, hi⟩ = .jobj pkvs →
            pkvs.lookup "id" = some idv →
            pkvs.lookup "name" = some nmv →
            (results.get ⟨i, hio⟩).player_id = idv
            ∧ (results.get ⟨i, hio⟩).name = nmv := by
  simp only [objGet] at hpj hbn hinit
  obtain ⟨tr, hres⟩ := handler_valid env kvs ps hbody hpj hbn hpl hne hobj hinit
  refine ⟨_, _, tr, hres, by simp, ?_⟩
  intro i hi hio pkvs idv nmv hp hid hnm
  have hmap : (ps.map (loopOutcome env ((kvs.lookup "bucket_name").getD .jnull))).get ⟨i, hio⟩
      = loopOutcome env ((kvs.lookup "bucket_name").getD .jnull) (ps.get ⟨i, hi⟩) := by
    simp [List.get_eq_getElem, List.getElem_map]
  rw [hmap, hp]
  constructor <;> simp [loopOutcome, objGet, hid, hnm]

/-- C10: a dict player entry — in particular one missing `id`, `name`,
or both — does not abort a validated request: the report still has one
outcome per player (the rest of the batch is processed), and that
entry's outcome echoes `entry.get("id")` / `entry.get("name")`, i.e. the
field value when present and null when absent. -/
theorem missing_fields_isolated (env : Env) (kvs : List (String × JVal)) (ps : List JVal)
    (hbody : truthy (JVal.jobj kvs) = true)
    (hpj : truthy (objGet (.jobj kvs) "project_id") = true)
    (hbn : truthy (objGet (.jobj kvs) "bucket_name") = true)
    (hpl : (kvs.lookup "players").getD (.jarr []) = .jarr ps)
    (hne : truthy (.jarr ps) = true)
    (hobj : ∀ p ∈ ps, p.isObjB = true)
    (hinit : env.clientInit (objGet (.jobj kvs) "project_id") = .ok ())
    (i : Nat) (hi : i < ps.length) (pkvs : List (String × JVal))
    (hp : ps.get ⟨i, hi⟩ = .jobj pkvs) :
    ∃ results cnt tr,
      process_nba_stats env (some (.jobj kvs)) =
        ((.report true ps.length cnt results, 200), tr)
      ∧ results.length = ps.length
      ∧ ∃ hio : i < results.length,
          (results.get ⟨i, hio⟩).player_id = (pkvs.lookup "id").getD .jnull
          ∧ (results.get ⟨i, hio⟩).name = (pkvs.lookup "name").getD .jnull := by
  simp only [objGet] at hpj hbn hinit
  obtain ⟨tr, hres⟩ := handler_valid env kvs ps hbody hpj hbn hpl hne hobj hinit
  have hlen : (ps.map (loopOutcome env ((kvs.lookup "bucket_name").getD .jnull))).length
      = ps.length := by simp
  refine ⟨_, _, tr, hres, hlen, ⟨hlen ▸ hi, ?_⟩⟩
  have hmap : (ps.map (loopOutcome env ((kvs.lookup "bucket_name").getD .jnull))).get
        ⟨i, hlen ▸ hi⟩
      = loopOutcome env ((kvs.lookup "bucket_name").getD .jnull) (ps.get ⟨i, hi⟩) := by
    simp [List.get_eq_getElem, List.getElem_map]
  rw [hmap, hp]
  constructor <;> simp [loopOutcome, objGet]

/-- C3: a missing/empty body, a falsy body, or a dict body in which any of
`project_id`, `bucket_name`, `players` is absent or falsy, yields a 400
response with `{"success": False, "error": <string>}`, with no player
processed and no upload call made (empty trace, for every environment). -/
theorem invalid_request_400 (env : Env) :
    (process_nba_stats env none = ((.err false "リクエストボディが必要です", 400), []))
    ∧ (∀ body : JVal, truthy body = false →
        process_nba_stats env (some body) =
          ((.err false "リクエストボディが必要です", 400), []))
    ∧ (∀ kvs : List (String × JVal), truthy (JVal.jobj kvs) = true →
        (truthy (objGet (.jobj kvs) "project_id")
          && truthy (objGet (.jobj kvs) "bucket_name")
          && truthy ((kvs.lookup "players").getD (.jarr []))) = false →
        process_nba_stats env (some (.jobj kvs)) =
          ((.err false "project_id, bucket_name, players が必要です", 400), [])) := by
  refine ⟨rfl, ?_, ?_⟩
  · intro body h
    simp [process_nba_stats, handler_body, h]
  · intro kvs hb hf
    simp only [objGet] at hf
    simp [process_nba_stats, handler_body, hb, pyGet, pyGetD, hf]

/-- Witness for C3: all three 400 branches at concrete requests. -/
theorem invalid_request_400_witness :
    process_nba_stats envAllOk none = ((.err false "リクエストボディが必要です", 400), [])
    ∧ process_nba_stats envAllOk (some (.jnum 0)) =
        ((.err false "リクエストボディが必要です", 400), [])
    ∧ process_nba_stats envAllOk
        (some (.jobj [("project_id", .jstr "proj"), ("bucket_name", .jstr "bkt"),
                      ("players", .jarr [])])) =
        ((.err false "project_id, bucket_name, players が必要です", 400), []) :=
  ⟨(invalid_request_400 envAllOk).1,
   (invalid_request_400 envAllOk).2.1 (.jnum 0) rfl,
   (invalid_request_400 envAllOk).2.2
      [("project_id", .jstr "proj"), ("bucket_name", .jstr "bkt"), ("players", .jarr [])]
      rfl rfl⟩

/-- C7: any exception escaping the handler body is converted by the
top-level catch into `({"success": False, "error": str(e)}, 500)`; in
particular a storage-client construction failure on a validated request. -/
theorem top_level_exception_500 (env : Env) :
    (∀ (request_json : Option JVal) (e : String) (tr : List UploadCall),
        handler_body env request_json = (.error e, tr) →
        process_nba_stats env request_json = ((.err false e, 500), tr))
    ∧ (∀ (kvs : List (String × JVal)) (e : String), truthy (JVal.jobj kvs) = true →
        (truthy (objGet (.jobj kvs) "project_id")
          && truthy (objGet (.jobj kvs) "bucket_name")
          && truthy ((kvs.lookup "players").getD (.jarr []))) = true →
        env.clientInit (objGet (.jobj kvs) "project_id") = .error e →
        process_nba_stats env (some (.jobj kvs)) = ((.err false e, 500), [])) := by
  refine ⟨?_, ?_⟩
  · intro rq e tr h
    simp [process_nba_stats, h]
  · intro kvs e hb hf hinit
    simp only [objGet] at hf hinit
    simp [process_nba_stats, handler_body, hb, pyGet, pyGetD, hf, hinit]

/-- The players list of the concrete requests below: one complete player
entry and one entry that is an empty dict. -/
def psA : List JVal :=
  [.jobj [("id", .jnum 2544), ("name", .jstr "LeBron James")], .jobj []]

/-- A concrete validated request body. -/
def reqKvs : List (String × JVal) :=
  [("project_id", .jstr "proj"), ("bucket_name", .jstr "bkt"), ("players", .jarr psA)]

/-- Witness for C7: a truthy non-dict body (its `.get` raises) and a
client-construction failure both surface as structured 500 responses. -/
theorem top_level_exception_500_witness :
    process_nba_stats envAllOk (some (.jarr [.jnum 1])) =
      ((.err false "AttributeError: object has no attribute get", 500), [])
    ∧ process_nba_stats envInitFail (some (.jobj reqKvs)) =
      ((.err false "DefaultCredentialsError", 500), []) :=
  ⟨(top_level_exception_500 envAllOk).1 (some (.jarr [.jnum 1]))
      "AttributeError: object has no attribute get" [] rfl,
   (top_level_exception_500 envInitFail).2 reqKvs "DefaultCredentialsError" rfl rfl rfl⟩

/-- Witness for C1 at a concrete validated request. -/
theorem aggregate_report_invariant_witness :
    ∃ results cnt tr,
      process_nba_stats envAllOk (some (.jobj reqKvs)) =
        ((.report true psA.length cnt results, 200), tr)
      ∧ results.length = psA.length
      ∧ cnt = results.countP (fun o => o.success) :=
  aggregate_report_invariant envAllOk reqKvs psA rfl rfl rfl rfl rfl (by decide) rfl

/-- Witness for C9: a validated request on which every player fails still
returns a 200 report whose request-level success field is `true`. -/
theorem validated_request_success_true_witness :
    ∃ cnt results tr,
      process_nba_stats envFetchFail (some (.jobj reqKvs)) =
        ((.report true psA.length cnt results, 200), tr) :=
  validated_request_success_true envFetchFail reqKvs psA rfl rfl rfl rfl rfl (by decide) rfl

/-- Witness for C5 at a concrete validated request, reading off the first
player's echoed fields. -/
theorem results_echo_players_witness :
    ∃ results cnt tr,
      process_nba_stats envAllOk (some (.jobj reqKvs)) =
        ((.report true psA.length cnt results, 200), tr)
      ∧ results.length = psA.length
      ∧ ∀ i (hi : i < psA.length) (hio : i < results.length),
          ∀ pkvs idv nmv,
            psA.get ⟨i, hi⟩ = .jobj pkvs →
            pkvs.lookup "id" = some idv →
            pkvs.lookup "name" = some nmv →
            (results.get ⟨i, hio⟩).player_id = idv
            ∧ (results.get ⟨i, hio⟩).name = nmv :=
  results_echo_players envAllOk reqKvs psA rfl rfl rfl rfl rfl (by decide) rfl

/-- Players list whose second entry has an `id` but is missing `name`. -/
def psB : List JVal :=
  [.jobj [("id", .jnum 2544), ("name", .jstr "LeBron James")], .jobj [("id", .jnum 42)]]

/-- A concrete validated request whose second player entry is missing
only its `name` field. -/
def reqKvsB : List (String × JVal) :=
  [("project_id", .jstr "proj"), ("bucket_name", .jstr "bkt"), ("players", .jarr psB)]

/-- Witness for C10: the second player entry of the concrete request has
an `id` but no `name`; the report keeps one outcome per player and that
outcome echoes the present id and a null name. -/
theorem missing_fields_isolated_witness :
    ∃ results cnt tr,
      process_nba_stats envAllOk (some (.jobj reqKvsB)) =
        ((.report true psB.length cnt results, 200), tr)
      ∧ results.length = psB.length
      ∧ ∃ hio : 1 < results.length,
          (results.get ⟨1, hio⟩).player_id =
            (([("id", JVal.jnum 42)] : List (String × JVal)).lookup "id").getD .jnull
          ∧ (results.get ⟨1, hio⟩).name =
            (([("id", JVal.jnum 42)] : List (String × JVal)).lookup "name").getD .jnull :=
  missing_fields_isolated envAllOk reqKvsB psB rfl rfl rfl rfl rfl (by decide) rfl
    1 (by decide) [("id", .jnum 42)] rfl
